import Mathlib

/-!
# Verification of the BigQuery daily-cost monitoring job

Shallow embedding of `src/cloudrun/main.py`.  Instants are modelled as
integer seconds since the Unix epoch (UTC); a calendar date is the floor
of the instant over 86400 seconds, matching `datetime.date()` on a
UTC-aware datetime.  Monetary values are modelled as rationals.  The two
external backends (BigQuery and Cloud Monitoring) are modelled by
explicit outcome oracles: a query outcome, per-call write outcomes, and
fault flags for the descriptor lookup/creation calls.  Every external
call the orchestrator makes is recorded in a trace.
-/

/-- `CUSTOM_METRIC_TYPE` constant from the configuration section. -/
def CUSTOM_METRIC_TYPE : String := "custom.googleapis.com/billing/bigquery/daily_cost"

/-- The default value substituted for `BILLING_TABLE` when the environment
variable is absent (`os.environ.get` with a default). -/
def BILLING_TABLE_DEFAULT : String := "your-project.your_dataset.gcp_billing_export_v1_*"

/-- `BILLING_TABLE = os.environ.get("BILLING_TABLE", default)`. -/
def BILLING_TABLE (env : Option String) : String := env.getD BILLING_TABLE_DEFAULT

/-- Python truthiness test used by `if not MONITORING_PROJECT_ID`:
the value is falsy when the variable is unset (`None`) or empty. -/
def env_unset_or_empty (o : Option String) : Bool :=
  match o with
  | none => true
  | some s => s.isEmpty

/-! ## TimeWindow: `get_previous_day_range` -/

/-- Seconds in one calendar day. -/
def SECONDS_PER_DAY : Int := 86400

/-- The calendar-day number of an instant, i.e. `datetime.date()` of a
UTC-aware datetime: floor division of the epoch seconds by one day. -/
def utc_date (t : Int) : Int := Int.ediv t SECONDS_PER_DAY

/-- Midnight UTC of the instant's calendar date
(`datetime.combine(date, time.min, tzinfo=utc)`). -/
def midnight_utc (t : Int) : Int := utc_date t * SECONDS_PER_DAY

/-- `get_previous_day_range`: `today = now(utc).date()`,
`yesterday = today - 1 day`, returns midnight of yesterday and midnight
of today. -/
def get_previous_day_range (now : Int) : Int × Int :=
  let today := utc_date now
  let yesterday := today - 1
  (yesterday * SECONDS_PER_DAY, today * SECONDS_PER_DAY)

/-! ## CostAggregator: `fetch_bigquery_costs` -/

/-- One row returned by the aggregation query. -/
structure CostRow where
  project_id : String
  daily_cost : Rat
deriving Repr, DecidableEq

/-- A `bigquery.ScalarQueryParameter (name, type, value)`. -/
structure QueryParam where
  name : String
  paramType : String
  value : Int
deriving Repr, DecidableEq

/-- The request `fetch_bigquery_costs` hands to the BigQuery client:
the SQL text plus the bound query parameters of the job config. -/
structure QueryRequest where
  text : String
  params : List QueryParam
deriving Repr, DecidableEq

/-- The SQL text built by `fetch_bigquery_costs`: the literal query
template with only the configured table name interpolated; the window
bounds appear solely as the placeholders `@start_time` / `@end_time`. -/
def query_text (table : String) : String :=
  "\n        SELECT\n            project.id AS project_id,\n            SUM(cost) AS daily_cost\n        FROM\n            `" ++ table ++
  "`\n        WHERE\n            service.description = \x27BigQuery\x27\n            AND usage_start_time >= @start_time\n            AND usage_start_time < @end_time\n            AND cost > 0\n        GROUP BY\n            project_id\n        HAVING\n            daily_cost > 0\n    "

/-- `fetch_bigquery_costs(start_time, end_time)`: builds the query text
from the configured table and passes the window bounds as bound
`TIMESTAMP` parameters in the job config. -/
def fetch_bigquery_costs (table : String) (start_time end_time : Int) : QueryRequest :=
  ⟨query_text table,
   [⟨"start_time", "TIMESTAMP", start_time⟩, ⟨"end_time", "TIMESTAMP", end_time⟩]⟩

/-! ## SeriesBuilder: `create_time_series` and the loop in `main` -/

/-- A `monitoring_v3.TimeSeries` as populated by `create_time_series`:
metric type, resource type, the single `project_id` label, one point
whose value is the double cost and whose interval end is the timestamp,
and the gauge/double kind markers. -/
structure TimeSeries where
  metricType : String
  resourceType : String
  projectId : String
  value : Rat
  timestamp : Int
  metricKind : String
  valueType : String
deriving Repr, DecidableEq

/-- `create_time_series(project_id, daily_cost, timestamp)`. -/
def create_time_series (project_id : String) (daily_cost : Rat) (timestamp : Int) : TimeSeries :=
  ⟨CUSTOM_METRIC_TYPE, "global", project_id, daily_cost, timestamp, "GAUGE", "DOUBLE"⟩

/-- The series-building loop of `main`: one `create_time_series` per row,
in row order, all carrying the same timestamp. -/
def build_series_list (rows : List CostRow) (timestamp : Int) : List TimeSeries :=
  rows.map fun row => create_time_series row.project_id row.daily_cost timestamp

/-! ## BatchPublisher: `write_metrics_to_monitoring` -/

/-- `batch_size = 200` in `write_metrics_to_monitoring`. -/
def batch_size : Nat := 200

/-- The batches produced by `for i in range(0, len, batch_size): l[i:i+batch_size]`:
one slice per loop start, `ceil(len/batch_size)` of them. -/
def makeBatches (l : List TimeSeries) : List (List TimeSeries) :=
  (List.range ((l.length + batch_size - 1) / batch_size)).map
    fun k => (l.drop (k * batch_size)).take batch_size

/-- Outcome of one publish run: the write calls attempted (in order), the
batches the backend committed, the re-raised error if a batch failed, and
the `Failed projects` log entry emitted for the failing batch. -/
structure PublishResult where
  calls : List (List TimeSeries)
  committed : List (List TimeSeries)
  errMsg : Option String
  loggedFailedProjects : Option (List String)
deriving Repr, DecidableEq

/-- The batch loop of `write_metrics_to_monitoring`.  `writeResult k` is
the backend's response to the `k`-th `create_time_series` call
(`none` = success, `some e` = the exception it raises).  On a failure the
loop logs the failing batch's project ids and re-raises, attempting no
further batch. -/
def writeLoop (writeResult : Nat → Option String) : Nat → List (List TimeSeries) → PublishResult
  | _, [] => ⟨[], [], none, none⟩
  | k, b :: rest =>
    match writeResult k with
    | none =>
      let r := writeLoop writeResult (k + 1) rest
      ⟨b :: r.calls, b :: r.committed, r.errMsg, r.loggedFailedProjects⟩
    | some e => ⟨[b], [], some e, some (b.map TimeSeries.projectId)⟩

/-- `write_metrics_to_monitoring(time_series_list)`: early return on an
empty list, otherwise the batch loop over the 200-point slices. -/
def write_metrics_to_monitoring (writeResult : Nat → Option String)
    (time_series_list : List TimeSeries) : PublishResult :=
  if time_series_list.isEmpty then ⟨[], [], none, none⟩
  else writeLoop writeResult 0 (makeBatches time_series_list)

/-! ## MetricSchemaProvisioner: `ensure_metric_descriptor_exists` -/

/-- The monitoring backend's descriptor state. -/
structure MonState where
  descriptorExists : Bool
deriving Repr, DecidableEq

/-- Per-call behaviour of the backend during one `ensure` call:
`getFault` makes the descriptor lookup raise even when the descriptor
exists (transient failure); `createFault` makes the creation call raise. -/
structure DescFaults where
  getFault : Bool
  createFault : Bool
deriving Repr, DecidableEq

/-- Observable outcome of one `ensure_metric_descriptor_exists` call. -/
structure EnsureResult where
  state : MonState
  createAttempted : Bool
  warnedCreateFailed : Bool
  raised : Bool
deriving Repr, DecidableEq

/-- `ensure_metric_descriptor_exists`: the lookup raises when the
descriptor is absent or the call faults, and any lookup exception is
caught and answered by a creation attempt; a creation exception is
caught and logged as a warning; no exception escapes. -/
def ensure_metric_descriptor_exists (f : DescFaults) (s : MonState) : EnsureResult :=
  let lookupOk := s.descriptorExists && !f.getFault
  if lookupOk then ⟨s, false, false, false⟩
  else if f.createFault then ⟨s, true, true, false⟩
  else ⟨⟨true⟩, true, false, false⟩

/-! ## Orchestrator: `main` -/

/-- One external call made during an invocation. -/
inductive Call where
  | getDescriptor : Call
  | createDescriptor : Call
  | runQuery : QueryRequest → Call
  | writeSeries : List TimeSeries → Call
deriving Repr, DecidableEq

/-- Whether a call is a time-series write. -/
def Call.isWrite : Call → Bool
  | .writeSeries _ => true
  | _ => false

/-- The `(message, status)` body returned by `main`, kept structural:
`noData` is `("No data to report", 200)`, `success n total` is the
`("Successfully wrote metrics for n projects. Total cost: $total", 200)`
body, and `error msg` is `("Error: msg", 500)`. -/
inductive Response where
  | noData : Response
  | success : Nat → Rat → Response
  | error : String → Response
deriving Repr, DecidableEq

/-- The HTTP status code of a response. -/
def Response.status : Response → Nat
  | .noData => 200
  | .success _ _ => 200
  | .error _ => 500

/-- One invocation's environment and backend behaviour. -/
structure World where
  gcpProject : Option String
  billingTableEnv : Option String
  descFaults : DescFaults
  monState : MonState
  queryOutcome : Except String (List CostRow)
  writeResult : Nat → Option String
  now : Int

/-- Result of one invocation: the HTTP response plus the trace of
external calls made, in order. -/
structure MainResult where
  response : Response
  trace : List Call

namespace cloudrun

/-- `main(request)`: validate `MONITORING_PROJECT_ID`, ensure the
descriptor, compute the window, run the query, return `No data to
report` on an empty result, otherwise build the series (timestamped with
the window end), publish in batches, and report the project count and
total cost; any exception is caught and converted to a 500. -/
def main (w : World) : MainResult :=
  if env_unset_or_empty w.gcpProject then
    ⟨.error "GCP_PROJECT environment variable not set", []⟩
  else
    let ensureRes := ensure_metric_descriptor_exists w.descFaults w.monState
    let ensureTrace :=
      Call.getDescriptor :: (if ensureRes.createAttempted then [Call.createDescriptor] else [])
    let range := get_previous_day_range w.now
    let req := fetch_bigquery_costs (BILLING_TABLE w.billingTableEnv) range.1 range.2
    match w.queryOutcome with
    | .error e => ⟨.error e, ensureTrace ++ [Call.runQuery req]⟩
    | .ok results =>
      if results.isEmpty then
        ⟨.noData, ensureTrace ++ [Call.runQuery req]⟩
      else
        let time_series_list := build_series_list results range.2
        let pub := write_metrics_to_monitoring w.writeResult time_series_list
        let trace := ensureTrace ++ [Call.runQuery req] ++ pub.calls.map Call.writeSeries
        match pub.errMsg with
        | some e => ⟨.error e, trace⟩
        | none =>
          ⟨.success time_series_list.length ((results.map CostRow.daily_cost).sum), trace⟩

end cloudrun

/-! ## Lemmas about the batch slicing -/

theorem makeBatches_nil : makeBatches [] = [] := rfl

/-- Unfolding: on a non-empty list the slicing loop yields the first
200-point slice followed by the slices of the remainder. -/
theorem makeBatches_cons_eq (l : List TimeSeries) (h : l ≠ []) :
    makeBatches l = l.take batch_size :: makeBatches (l.drop batch_size) := by
  have hlen : 0 < l.length := List.length_pos.mpr h
  have hn : (l.length + batch_size - 1) / batch_size
      = ((l.drop batch_size).length + batch_size - 1) / batch_size + 1 := by
    rw [List.length_drop]
    show (l.length + 200 - 1) / 200 = (l.length - 200 + 200 - 1) / 200 + 1
    omega
  rw [makeBatches, hn, List.range_succ_eq_map]
  simp only [List.map_cons, List.map_map]
  refine congrArg₂ _ (by simp) ?_
  rw [makeBatches]
  refine List.map_congr_left ?_
  intro k _
  simp only [Function.comp]
  rw [List.drop_drop]
  have hmul : Nat.succ k * batch_size = batch_size + k * batch_size := by
    rw [Nat.succ_mul, Nat.add_comm]
  rw [hmul]

/-- The slices are contiguous and order preserving: flattening the
batches restores the original list. -/
theorem makeBatches_flatten (l : List TimeSeries) : (makeBatches l).flatten = l := by
  have H : ∀ n (l : List TimeSeries), l.length ≤ n → (makeBatches l).flatten = l := by
    intro n
    induction n with
    | zero =>
      intro l hl
      have : l = [] := List.eq_nil_of_length_eq_zero (Nat.le_zero.mp hl)
      subst this; rfl
    | succ n ih =>
      intro l hl
      by_cases h : l = []
      · subst h; rfl
      · rw [makeBatches_cons_eq l h, List.flatten_cons,
          ih (l.drop batch_size) ?_, List.take_append_drop]
        have h1 : 0 < l.length := List.length_pos.mpr h
        rw [List.length_drop]
        have hb : batch_size = 200 := rfl
        omega
  exact H l.length l le_rfl

/-- Every slice holds at most `batch_size` points. -/
theorem makeBatches_length_le (l : List TimeSeries) (b : List TimeSeries)
    (hb : b ∈ makeBatches l) : b.length ≤ batch_size := by
  rw [makeBatches] at hb
  obtain ⟨k, -, rfl⟩ := List.mem_map.mp hb
  rw [List.length_take]
  exact min_le_left _ _

/-- A 450-point list is sliced into sizes 200, 200, 50. -/
theorem makeBatches_sizes_450 (l : List TimeSeries) (h : l.length = 450) :
    (makeBatches l).map List.length = [200, 200, 50] := by
  have h3 : (l.length + batch_size - 1) / batch_size = 3 := by rw [h]; rfl
  rw [makeBatches, h3]
  have hr : List.range 3 = [0, 1, 2] := rfl
  rw [hr]
  simp [List.length_take, List.length_drop, h]
  have hb : batch_size = 200 := rfl
  omega

/-! ## Lemmas about the write loop -/

theorem writeLoop_all_ok (writeResult : Nat → Option String)
    (h : ∀ k, writeResult k = none) :
    ∀ (bs : List (List TimeSeries)) (start : Nat),
      writeLoop writeResult start bs = ⟨bs, bs, none, none⟩ := by
  intro bs
  induction bs with
  | nil => intro start; rfl
  | cons b rest ih => intro start; simp [writeLoop, h, ih]

theorem writeLoop_fail (writeResult : Nat → Option String) (e : String) :
    ∀ (bs : List (List TimeSeries)) (start k : Nat) (hk : k < bs.length),
      (∀ i, i < k → writeResult (start + i) = none) →
      writeResult (start + k) = some e →
      writeLoop writeResult start bs =
        ⟨bs.take (k + 1), bs.take k, some e,
         some ((bs.get ⟨k, hk⟩).map TimeSeries.projectId)⟩ := by
  intro bs
  induction bs with
  | nil =>
    intro start k hk
    exact absurd hk (by simp)
  | cons b rest ih =>
    intro start k hk hok hfail
    cases k with
    | zero =>
      have h0 : writeResult start = some e := by simpa using hfail
      simp [writeLoop, h0]
    | succ k =>
      have h0 : writeResult start = none := by simpa using hok 0 (Nat.succ_pos k)
      have hk' : k < rest.length := by simpa using hk
      have hok' : ∀ i, i < k → writeResult (start + 1 + i) = none := by
        intro i hi
        have heq : start + 1 + i = start + (i + 1) := by omega
        rw [heq]
        exact hok (i + 1) (by omega)
      have hfail' : writeResult (start + 1 + k) = some e := by
        have heq : start + 1 + k = start + (k + 1) := by omega
        rw [heq]; exact hfail
      have ihr := ih (start + 1) k hk' hok' hfail'
      simp [writeLoop, h0, ihr]

theorem writeLoop_calls_mem (writeResult : Nat → Option String) :
    ∀ (bs : List (List TimeSeries)) (start : Nat) (b : List TimeSeries),
      b ∈ (writeLoop writeResult start bs).calls → b ∈ bs := by
  intro bs
  induction bs with
  | nil => intro start b hb; simp [writeLoop] at hb
  | cons c rest ih =>
    intro start b hb
    rw [writeLoop] at hb
    cases hcr : writeResult start with
    | none =>
      rw [hcr] at hb
      simp only [List.mem_cons] at hb ⊢
      rcases hb with hb | hb
      · exact Or.inl hb
      · exact Or.inr (ih (start + 1) b hb)
    | some e =>
      rw [hcr] at hb
      simp only [List.mem_singleton] at hb
      simp [hb]

/-- A non-empty row list builds a non-empty series list. -/
theorem build_series_list_isEmpty (rows : List CostRow) (t : Int) :
    (build_series_list rows t).isEmpty = rows.isEmpty := by
  cases rows <;> rfl

/-! ## Claim theorems -/

/-- C6: for every invocation instant, the computed window's end instant is
midnight UTC of the instant's calendar date, the start is the end minus
exactly one calendar day, and hence the window spans exactly one day; the
computation is a total function of the current-time source. -/
theorem previous_day_range_correct (now : Int) :
    (get_previous_day_range now).2 - (get_previous_day_range now).1 = SECONDS_PER_DAY ∧
    (get_previous_day_range now).2 = midnight_utc now ∧
    (get_previous_day_range now).1 = (get_previous_day_range now).2 - SECONDS_PER_DAY := by
  refine ⟨?_, rfl, ?_⟩
  · show utc_date now * SECONDS_PER_DAY - (utc_date now - 1) * SECONDS_PER_DAY = SECONDS_PER_DAY
    ring
  · show (utc_date now - 1) * SECONDS_PER_DAY = utc_date now * SECONDS_PER_DAY - SECONDS_PER_DAY
    ring

/-- C8: publishing an empty series list performs zero backend write calls,
commits nothing, and returns without raising. -/
theorem publish_empty_noop (writeResult : Nat → Option String) :
    (write_metrics_to_monitoring writeResult []).calls = [] ∧
    (write_metrics_to_monitoring writeResult []).committed = [] ∧
    (write_metrics_to_monitoring writeResult []).errMsg = none := ⟨rfl, rfl, rfl⟩

/-- C9: the SQL text issued by `fetch_bigquery_costs` is identical for any
two window inputs — the bounds enter only as the bound `start_time` /
`end_time` query parameters, never interpolated into the text. -/
theorem query_bounds_passed_as_parameters (table : String) (s e s' e' : Int) :
    (fetch_bigquery_costs table s e).text = (fetch_bigquery_costs table s' e').text ∧
    (fetch_bigquery_costs table s e).params =
      [⟨"start_time", "TIMESTAMP", s⟩, ⟨"end_time", "TIMESTAMP", e⟩] := ⟨rfl, rfl⟩

/-- C1: publishing a non-empty series list partitions it into contiguous,
order-preserving batches of at most 200 points (flattening the batches
restores the list), issues one write call per batch in order when the
backend accepts them, never issues a call exceeding 200 points, and for a
450-point list produces exactly the batch sizes 200, 200, 50. -/
theorem publish_batching (l : List TimeSeries) (writeResult : Nat → Option String)
    (h : l ≠ []) :
    (makeBatches l).flatten = l ∧
    (∀ b ∈ makeBatches l, b.length ≤ batch_size) ∧
    ((∀ k, writeResult k = none) →
      (write_metrics_to_monitoring writeResult l).calls = makeBatches l) ∧
    (∀ b ∈ (write_metrics_to_monitoring writeResult l).calls, b.length ≤ batch_size) ∧
    (l.length = 450 → (makeBatches l).map List.length = [200, 200, 50]) := by
  have hne : l.isEmpty = false := by simpa [List.isEmpty_iff] using h
  refine ⟨makeBatches_flatten l, fun b hb => makeBatches_length_le l b hb, ?_, ?_,
    fun h450 => makeBatches_sizes_450 l h450⟩
  · intro hok
    rw [write_metrics_to_monitoring, if_neg (by rw [hne]; exact Bool.false_ne_true),
      writeLoop_all_ok writeResult hok]
  · intro b hb
    rw [write_metrics_to_monitoring, if_neg (by rw [hne]; exact Bool.false_ne_true)] at hb
    exact makeBatches_length_le l b (writeLoop_calls_mem writeResult _ 0 b hb)

/-- Witness for C1 at a concrete 450-point list with an accepting backend. -/
theorem publish_batching_witness :
    (List.replicate 450 (create_time_series "proj-a" 3 0) ≠ []) ∧
    (makeBatches (List.replicate 450 (create_time_series "proj-a" 3 0))).map List.length
      = [200, 200, 50] ∧
    (write_metrics_to_monitoring (fun _ => none)
        (List.replicate 450 (create_time_series "proj-a" 3 0))).calls
      = makeBatches (List.replicate 450 (create_time_series "proj-a" 3 0)) := by
  have hlen : (List.replicate 450 (create_time_series "proj-a" 3 0)).length = 450 :=
    List.length_replicate 450 _
  have h : List.replicate 450 (create_time_series "proj-a" 3 0) ≠ [] := by
    intro hcon
    rw [hcon] at hlen
    exact absurd hlen (by decide)
  have H := publish_batching (List.replicate 450 (create_time_series "proj-a" 3 0))
    (fun _ => none) h
  exact ⟨h, H.2.2.2.2 hlen, H.2.2.1 (fun k => rfl)⟩

/-- C7: series building is one-to-one and order-preserving: the series
list has the same length as the rows, the i-th series is exactly the
series of the i-th row (its `project_id` as the label, its `daily_cost`
as the double value), and every point carries the window's end instant as
its timestamp. -/
theorem build_series_one_to_one (rows : List CostRow) (now : Int) :
    (build_series_list rows (get_previous_day_range now).2).length = rows.length ∧
    (∀ i : Nat, ∀ r : CostRow, rows[i]? = some r →
      (build_series_list rows (get_previous_day_range now).2)[i]?
        = some (create_time_series r.project_id r.daily_cost (get_previous_day_range now).2)) ∧
    (∀ i : Nat, ∀ r : CostRow, rows[i]? = some r →
      ∃ s, (build_series_list rows (get_previous_day_range now).2)[i]? = some s ∧
        s.projectId = r.project_id ∧ s.value = r.daily_cost ∧
        s.timestamp = (get_previous_day_range now).2) ∧
    (∀ s ∈ build_series_list rows (get_previous_day_range now).2,
      s.timestamp = (get_previous_day_range now).2) := by
  refine ⟨by simp [build_series_list], ?_, ?_, ?_⟩
  · intro i r hr
    rw [build_series_list, List.getElem?_map, hr]
    rfl
  · intro i r hr
    exact ⟨_, by rw [build_series_list, List.getElem?_map, hr]; rfl, rfl, rfl, rfl⟩
  · intro s hs
    obtain ⟨r, -, rfl⟩ := List.mem_map.mp hs
    rfl

/-- Witness for C7 at a concrete one-row input. -/
theorem build_series_one_to_one_witness :
    ([⟨"proj-a", 3⟩] : List CostRow)[0]? = some ⟨"proj-a", 3⟩ ∧
    (build_series_list [⟨"proj-a", 3⟩] (get_previous_day_range 100000).2)[0]?
      = some (create_time_series "proj-a" 3 (get_previous_day_range 100000).2) := by
  have H := build_series_one_to_one [⟨"proj-a", 3⟩] 100000
  exact ⟨rfl, H.2.1 0 ⟨"proj-a", 3⟩ rfl⟩

/-- C3: `ensure_metric_descriptor_exists` never raises whatever the
backend does; any lookup failure (true absence or transient fault) leads
to a creation attempt rather than propagating; a creation failure is
logged as a warning and swallowed; and a second sequential call after a
successful creation observes the descriptor as existing and performs no
creation. -/
theorem ensure_descriptor_robust (f₁ f₂ : DescFaults) (s : MonState) :
    (ensure_metric_descriptor_exists f₁ s).raised = false ∧
    ((s.descriptorExists = false ∨ f₁.getFault = true) →
      (ensure_metric_descriptor_exists f₁ s).createAttempted = true) ∧
    (f₁.createFault = true →
      (ensure_metric_descriptor_exists f₁ s).createAttempted = true →
      (ensure_metric_descriptor_exists f₁ s).warnedCreateFailed = true ∧
      (ensure_metric_descriptor_exists f₁ s).raised = false) ∧
    ((ensure_metric_descriptor_exists f₁ s).createAttempted = true →
      f₁.createFault = false → f₂.getFault = false →
      (ensure_metric_descriptor_exists f₂
        (ensure_metric_descriptor_exists f₁ s).state).createAttempted = false ∧
      (ensure_metric_descriptor_exists f₂
        (ensure_metric_descriptor_exists f₁ s).state).raised = false) := by
  rcases f₁ with ⟨g₁, c₁⟩
  rcases f₂ with ⟨g₂, c₂⟩
  rcases s with ⟨d⟩
  cases g₁ <;> cases c₁ <;> cases g₂ <;> cases c₂ <;> cases d <;> decide

/-- Witness for C3: a failed-lookup-then-failed-create call warns and
does not raise, and after a successful creation a second call with a
healthy lookup creates nothing. -/
theorem ensure_descriptor_robust_witness :
    (((⟨false⟩ : MonState).descriptorExists = false ∨
        (⟨false, true⟩ : DescFaults).getFault = true) ∧
     (ensure_metric_descriptor_exists ⟨false, true⟩ ⟨false⟩).createAttempted = true ∧
     (ensure_metric_descriptor_exists ⟨false, true⟩ ⟨false⟩).warnedCreateFailed = true ∧
     (ensure_metric_descriptor_exists ⟨false, true⟩ ⟨false⟩).raised = false) ∧
    ((ensure_metric_descriptor_exists ⟨false, false⟩ ⟨false⟩).createAttempted = true ∧
     (ensure_metric_descriptor_exists ⟨false, false⟩
        (ensure_metric_descriptor_exists ⟨false, false⟩ ⟨false⟩).state).createAttempted = false ∧
     (ensure_metric_descriptor_exists ⟨false, false⟩
        (ensure_metric_descriptor_exists ⟨false, false⟩ ⟨false⟩).state).raised = false) := by
  have H1 := ensure_descriptor_robust ⟨false, true⟩ ⟨false, false⟩ ⟨false⟩
  have H2 := ensure_descriptor_robust ⟨false, false⟩ ⟨false, false⟩ ⟨false⟩
  have h1c := H1.2.1 (Or.inl rfl)
  have h2c := H2.2.1 (Or.inl rfl)
  exact ⟨⟨Or.inl rfl, h1c, (H1.2.2.1 rfl h1c).1, (H1.2.2.1 rfl h1c).2⟩,
    h2c, (H2.2.2.2 h2c rfl rfl).1, (H2.2.2.2 h2c rfl rfl).2⟩

/-- With a set, non-empty project id the configuration check passes. -/
theorem env_set_not_falsy (w : World) (p : String)
    (hg : w.gcpProject = some p) (hp : p.isEmpty = false) :
    env_unset_or_empty w.gcpProject = false := by
  rw [hg]
  exact hp

/-- C4: with the monitoring project id unset, `main` returns the
configuration error with status 500 and makes no external call at all:
no descriptor lookup or creation, no query, no write. -/
theorem missing_project_id_config (w : World) (h : w.gcpProject = none) :
    (cloudrun.main w).response = .error "GCP_PROJECT environment variable not set" ∧
    (cloudrun.main w).response.status = 500 ∧
    (cloudrun.main w).trace = [] := by
  have hb : env_unset_or_empty w.gcpProject = true := by rw [h]; rfl
  rw [cloudrun.main, if_pos hb]
  exact ⟨rfl, rfl, rfl⟩

/-- Witness for C4 at a concrete world with the variable unset. -/
theorem missing_project_id_config_witness :
    (World.mk none none ⟨false, false⟩ ⟨false⟩ (.ok []) (fun _ => none) 0).gcpProject = none ∧
    (cloudrun.main
      (World.mk none none ⟨false, false⟩ ⟨false⟩ (.ok []) (fun _ => none) 0)).trace = [] ∧
    (cloudrun.main
      (World.mk none none ⟨false, false⟩ ⟨false⟩ (.ok []) (fun _ => none) 0)).response.status
      = 500 := by
  have H := missing_project_id_config
    (World.mk none none ⟨false, false⟩ ⟨false⟩ (.ok []) (fun _ => none) 0) rfl
  exact ⟨rfl, H.2.2, H.2.1⟩

/-- C5: when the query returns no rows, `main` returns the distinct
`No data to report` success response with status 200 and the trace
contains no time-series write call. -/
theorem empty_results_no_data (w : World) (p : String)
    (hg : w.gcpProject = some p) (hp : p.isEmpty = false)
    (hq : w.queryOutcome = .ok []) :
    (cloudrun.main w).response = .noData ∧
    (cloudrun.main w).response.status = 200 ∧
    (∀ c ∈ (cloudrun.main w).trace, c.isWrite = false) := by
  have hb := env_set_not_falsy w p hg hp
  obtain ⟨g, bt, df, ms, qo, wr, n⟩ := w
  dsimp only at hq hb
  subst hq
  have hmain : cloudrun.main ⟨g, bt, df, ms, .ok [], wr, n⟩ =
      ⟨.noData, Call.getDescriptor ::
        ((if (ensure_metric_descriptor_exists df ms).createAttempted = true
          then [Call.createDescriptor] else []) ++
        [Call.runQuery (fetch_bigquery_costs (BILLING_TABLE bt)
          (get_previous_day_range n).1 (get_previous_day_range n).2)])⟩ := by
    simp only [cloudrun.main, hb, Bool.false_eq_true, if_false, List.isEmpty_nil, if_true,
      List.cons_append]
  rw [hmain]
  refine ⟨rfl, rfl, ?_⟩
  intro c hc
  simp only [List.mem_cons] at hc
  rcases hc with hc | hc
  · rw [hc]; rfl
  · by_cases hca : (ensure_metric_descriptor_exists df ms).createAttempted = true
    · rw [if_pos hca] at hc
      simp only [List.cons_append, List.nil_append, List.mem_cons, List.not_mem_nil,
        or_false] at hc
      rcases hc with hc | hc <;> (rw [hc]; rfl)
    · rw [if_neg hca] at hc
      simp only [List.nil_append, List.mem_singleton] at hc
      rw [hc]
      rfl

/-- Witness for C5 at a concrete world whose query yields no rows. -/
theorem empty_results_no_data_witness :
    (cloudrun.main
      (World.mk (some "mon-proj") none ⟨false, false⟩ ⟨true⟩ (.ok []) (fun _ => none) 86400)
      ).response = .noData ∧
    (cloudrun.main
      (World.mk (some "mon-proj") none ⟨false, false⟩ ⟨true⟩ (.ok []) (fun _ => none) 86400)
      ).response.status = 200 := by
  have H := empty_results_no_data
    (World.mk (some "mon-proj") none ⟨false, false⟩ ⟨true⟩ (.ok []) (fun _ => none) 86400)
    "mon-proj" rfl rfl rfl
  exact ⟨H.1, H.2.1⟩

/-- C2: if the backend rejects the `k`-th batch (after accepting the
previous ones), publish records the re-raised error and logs the failing
batch's project identifiers, the batches before `k` stay committed, no
batch after `k` is attempted (the calls are exactly the first `k + 1`
batches), and the orchestrator converts the re-raised failure into a
status-500 error response. -/
theorem publish_failure_aborts (w : World) (p : String) (rows : List CostRow)
    (k : Nat) (e : String)
    (hg : w.gcpProject = some p) (hp : p.isEmpty = false)
    (hq : w.queryOutcome = .ok rows) (hrows : rows ≠ [])
    (hk : k < (makeBatches (build_series_list rows (get_previous_day_range w.now).2)).length)
    (hok : ∀ i, i < k → w.writeResult i = none)
    (hfail : w.writeResult k = some e) :
    (write_metrics_to_monitoring w.writeResult
        (build_series_list rows (get_previous_day_range w.now).2)).errMsg = some e ∧
    (write_metrics_to_monitoring w.writeResult
        (build_series_list rows (get_previous_day_range w.now).2)).loggedFailedProjects
      = some (((makeBatches (build_series_list rows (get_previous_day_range w.now).2)).get
          ⟨k, hk⟩).map TimeSeries.projectId) ∧
    (write_metrics_to_monitoring w.writeResult
        (build_series_list rows (get_previous_day_range w.now).2)).committed
      = (makeBatches (build_series_list rows (get_previous_day_range w.now).2)).take k ∧
    (write_metrics_to_monitoring w.writeResult
        (build_series_list rows (get_previous_day_range w.now).2)).calls
      = (makeBatches (build_series_list rows (get_previous_day_range w.now).2)).take (k + 1) ∧
    (cloudrun.main w).response = .error e ∧
    (cloudrun.main w).response.status = 500 := by
  have hb := env_set_not_falsy w p hg hp
  obtain ⟨g, bt, df, ms, qo, wr, n⟩ := w
  dsimp only at hq hb hk hok hfail ⊢
  subst hq
  have hres : rows.isEmpty = false := by
    cases rows with
    | nil => exact absurd rfl hrows
    | cons a as => rfl
  have hLne : (build_series_list rows (get_previous_day_range n).2).isEmpty = false := by
    rw [build_series_list_isEmpty, hres]
  have hok0 : ∀ i, i < k → wr (0 + i) = none := by
    intro i hi
    rw [Nat.zero_add]
    exact hok i hi
  have hfail0 : wr (0 + k) = some e := by
    rw [Nat.zero_add]
    exact hfail
  have hpub : write_metrics_to_monitoring wr
      (build_series_list rows (get_previous_day_range n).2) =
      ⟨(makeBatches (build_series_list rows (get_previous_day_range n).2)).take (k + 1),
       (makeBatches (build_series_list rows (get_previous_day_range n).2)).take k,
       some e,
       some (((makeBatches (build_series_list rows (get_previous_day_range n).2)).get
         ⟨k, hk⟩).map TimeSeries.projectId)⟩ := by
    rw [write_metrics_to_monitoring, if_neg (by rw [hLne]; exact Bool.false_ne_true)]
    exact writeLoop_fail wr e _ 0 k hk hok0 hfail0
  have hresp : (cloudrun.main ⟨g, bt, df, ms, .ok rows, wr, n⟩).response = .error e := by
    simp only [cloudrun.main, hb, Bool.false_eq_true, if_false, hres, hpub]
  exact ⟨by rw [hpub], by rw [hpub], by rw [hpub], by rw [hpub], hresp, by rw [hresp]; rfl⟩

/-- Witness for C2: a two-row result whose very first batch write fails
with `backend unavailable`. -/
theorem publish_failure_aborts_witness :
    (write_metrics_to_monitoring (fun _ => some "backend unavailable")
        (build_series_list [⟨"proj-a", 3⟩, ⟨"proj-b", 4⟩]
          (get_previous_day_range 0).2)).errMsg = some "backend unavailable" ∧
    (write_metrics_to_monitoring (fun _ => some "backend unavailable")
        (build_series_list [⟨"proj-a", 3⟩, ⟨"proj-b", 4⟩]
          (get_previous_day_range 0).2)).loggedFailedProjects
      = some ["proj-a", "proj-b"] ∧
    (write_metrics_to_monitoring (fun _ => some "backend unavailable")
        (build_series_list [⟨"proj-a", 3⟩, ⟨"proj-b", 4⟩]
          (get_previous_day_range 0).2)).committed = [] ∧
    (cloudrun.main (World.mk (some "mon-proj") none ⟨false, false⟩ ⟨true⟩
        (.ok [⟨"proj-a", 3⟩, ⟨"proj-b", 4⟩])
        (fun _ => some "backend unavailable") 0)).response.status = 500 := by
  have hk : 0 < (makeBatches (build_series_list [⟨"proj-a", 3⟩, ⟨"proj-b", 4⟩]
      (get_previous_day_range 0).2)).length := by decide
  have H := publish_failure_aborts
    (World.mk (some "mon-proj") none ⟨false, false⟩ ⟨true⟩
      (.ok [⟨"proj-a", 3⟩, ⟨"proj-b", 4⟩]) (fun _ => some "backend unavailable") 0)
    "mon-proj" [⟨"proj-a", 3⟩, ⟨"proj-b", 4⟩] 0 "backend unavailable"
    rfl rfl rfl (List.cons_ne_nil _ _) hk
    (fun i hi => absurd hi (Nat.not_lt_zero i)) rfl
  refine ⟨H.1, ?_, ?_, H.2.2.2.2.2⟩
  · rw [H.2.1]
    rfl
  · rw [H.2.2.1]
    rfl

/-- Once the configuration check passes, the trace of an invocation
always contains the aggregation-query call built from the configured
billing table. -/
theorem main_trace_has_query (w : World) (p : String)
    (hg : w.gcpProject = some p) (hp : p.isEmpty = false) :
    Call.runQuery (fetch_bigquery_costs (BILLING_TABLE w.billingTableEnv)
        (get_previous_day_range w.now).1 (get_previous_day_range w.now).2)
      ∈ (cloudrun.main w).trace := by
  have hb := env_set_not_falsy w p hg hp
  obtain ⟨g, bt, df, ms, qo, wr, n⟩ := w
  dsimp only at hb ⊢
  rcases qo with e | results
  · rw [cloudrun.main, if_neg (by rw [hb]; exact Bool.false_ne_true)]
    exact List.mem_append_right _ (List.mem_singleton.mpr rfl)
  · rw [cloudrun.main, if_neg (by rw [hb]; exact Bool.false_ne_true)]
    dsimp only
    by_cases hres : results.isEmpty = true
    · rw [if_pos hres]
      exact List.mem_append_right _ (List.mem_singleton.mpr rfl)
    · rw [if_neg hres]
      rcases hpe : (write_metrics_to_monitoring wr
          (build_series_list results (get_previous_day_range n).2)).errMsg with _ | e
      · exact List.mem_append_left _
          (List.mem_append_right _ (List.mem_singleton.mpr rfl))
      · exact List.mem_append_left _
          (List.mem_append_right _ (List.mem_singleton.mpr rfl))

/-- C10: an absent `BILLING_TABLE` environment variable does not fail the
configuration check — the placeholder default table reference is
substituted into the query text and the query call is still issued; a
missing billing table surfaces only as a query execution failure, which
the orchestrator reports as a status-500 error. -/
theorem billing_table_default_behaviour (w : World) (p : String)
    (ht : w.billingTableEnv = none)
    (hg : w.gcpProject = some p) (hp : p.isEmpty = false) :
    BILLING_TABLE w.billingTableEnv = BILLING_TABLE_DEFAULT ∧
    query_text (BILLING_TABLE w.billingTableEnv)
      = query_text BILLING_TABLE_DEFAULT ∧
    Call.runQuery (fetch_bigquery_costs BILLING_TABLE_DEFAULT
        (get_previous_day_range w.now).1 (get_previous_day_range w.now).2)
      ∈ (cloudrun.main w).trace ∧
    (∀ m, w.queryOutcome = .error m →
      (cloudrun.main w).response = .error m ∧
      (cloudrun.main w).response.status = 500) := by
  have htab : BILLING_TABLE w.billingTableEnv = BILLING_TABLE_DEFAULT := by
    rw [ht]
    rfl
  have hmem := main_trace_has_query w p hg hp
  rw [htab] at hmem
  refine ⟨htab, by rw [htab], hmem, ?_⟩
  intro m hqm
  have hb := env_set_not_falsy w p hg hp
  obtain ⟨g, bt, df, ms, qo, wr, n⟩ := w
  dsimp only at hqm hb ⊢
  subst hqm
  have hresp : (cloudrun.main ⟨g, bt, df, ms, .error m, wr, n⟩).response = .error m := by
    simp only [cloudrun.main, hb, Bool.false_eq_true, if_false]
  exact ⟨hresp, by rw [hresp]; rfl⟩

/-- Witness for C10: billing table unset, the query fails with
`table not found`, and `main` surfaces that as a 500. -/
theorem billing_table_default_behaviour_witness :
    BILLING_TABLE (World.mk (some "mon-proj") none ⟨false, false⟩ ⟨true⟩
        (.error "table not found") (fun _ => none) 0).billingTableEnv
      = "your-project.your_dataset.gcp_billing_export_v1_*" ∧
    (cloudrun.main (World.mk (some "mon-proj") none ⟨false, false⟩ ⟨true⟩
        (.error "table not found") (fun _ => none) 0)).response
      = .error "table not found" ∧
    (cloudrun.main (World.mk (some "mon-proj") none ⟨false, false⟩ ⟨true⟩
        (.error "table not found") (fun _ => none) 0)).response.status = 500 := by
  have H := billing_table_default_behaviour
    (World.mk (some "mon-proj") none ⟨false, false⟩ ⟨true⟩
      (.error "table not found") (fun _ => none) 0)
    "mon-proj" rfl rfl rfl
  have He := H.2.2.2 "table not found" rfl
  exact ⟨H.1, He.1, He.2⟩
